import Mathlib

/-!
A shallow embedding of src/speak_name.py.

The script is a single procedural flow: validate arguments, build the
text to speak (a string-formatting branch), perform one HTTP POST, and
either write the response body to a file and report success, or report
a failure.  We model strings as Lean String, bytes as List Nat, the
single network call outcome as an explicit parameter, and the two
observable effects (outgoing requests, file writes) as lists returned
alongside the result.

Modelling notes:
  - Python truthiness of an optional string argument (None or "") is
    pyTruthy.
  - Python str.strip() / str.strip(chars) are modelled by pyStrip /
    pyStripSlash over the character list.  CPython strips all Unicode
    whitespace; Char.isWhitespace covers the ASCII whitespace actually
    reachable here.
  - Python str.isupper (at least one cased character, and every cased
    character uppercase) is modelled over the ASCII cased characters,
    which covers CMU-Arpabet strings (pure ASCII) exactly; a non-ASCII
    lowercase letter is uncased in this model.
  - json.dumps(result) followed by print is modelled as emitting the
    structured result itself: MainOutcome.printed is the list of JSON
    objects written to stdout, one PyResult per object.
  - float(sys.argv[6]) at line 180 of the source is outside any
    try/except; an unparsable speed argument raises an uncaught
    ValueError.  pyFloatValid recognises the CPython float() grammar
    (ASCII, without underscore digit separators, which cannot occur in
    the claims considered); a failed parse is modelled as
    MainOutcome.crashed with nothing printed.
  - The provider-error detail extraction (response.json() inside
    try/except at lines 117-124) is abstracted as the detail field of
    the response: every branch of that code yields a message of the
    form "API error N: <detail>".
  - The file write (open(output_path, "wb")) is modelled as always
    succeeding; a write records (path, bytes written).
-/

namespace SpeakName

/-- Python truthiness of an optional string: None and "" are falsy. -/
def pyTruthy : Option String → Bool
  | none => false
  | some s => !(s == "")

/-- Strip characters satisfying p from both ends of a character list,
as Python str.strip does. -/
def pyStripChars (p : Char → Bool) (l : List Char) : List Char :=
  ((l.dropWhile p).reverse.dropWhile p).reverse

/-- Python s.strip(): remove leading and trailing whitespace. -/
def pyStrip (s : String) : String :=
  ⟨pyStripChars Char.isWhitespace s.data⟩

/-- Python strip called with a slash argument: remove leading and
trailing slash characters. -/
def pyStripSlash (s : String) : String :=
  ⟨pyStripChars (fun c => c == '/') s.data⟩

/-- Python s.replace(" ", ""): remove every space character. -/
def pyRemoveSpaces (s : String) : String :=
  ⟨s.data.filter (fun c => !(c == ' '))⟩

/-- A cased character in the ASCII fragment of Python str.isupper. -/
def pyCased (c : Char) : Bool :=
  c.isUpper || c.isLower

/-- Python s.isupper(): at least one cased character, and every cased
character is uppercase (ASCII model, see header). -/
def pyIsUpper (s : String) : Bool :=
  s.data.any pyCased && s.data.all (fun c => !(pyCased c) || c.isUpper)

/-- Python s.startswith(pre). -/
def pyStartsWith (s pre : String) : Bool :=
  pre.data.isPrefixOf s.data

/-- The condition at lines 67-70 of the source: the ipa argument is
truthy, its strip() is nonempty, it is not the exact sentinel
"IPA not available", and it does not start with "CMU not available"
(the final duplicated strip check of line 70 is kept). -/
def hintUsable : Option String → Bool
  | none => false
  | some s =>
      !(s == "") && !(pyStrip s == "") &&
      !(s == "IPA not available") &&
      !(pyStartsWith s "CMU not available") &&
      !(pyStrip s == "")

/-- Line 73, first conjunct: any(char in ipa_clean for char in
a list holding the three stress digits). -/
def containsStressDigit (s : String) : Bool :=
  s.data.any (fun c => c == '0' || c == '1' || c == '2')

/-- Line 73: the cleaned hint looks like CMU Arpabet. -/
def looksLikeCMU (s : String) : Bool :=
  containsStressDigit s && pyIsUpper (pyRemoveSpaces s)

/-- Lines 67-84 of the source: choose the text to send, one of the CMU
phoneme tag, the IPA phoneme tag, or the plain cleaned respelling. -/
def text_to_speak (name phonetic_text : String) (ipa : Option String) : String :=
  if hintUsable ipa then
    let ipa_clean := pyStripSlash (pyStrip (ipa.getD ""))
    if looksLikeCMU ipa_clean then
      "<phoneme alphabet=\x27cmu-arpabet\x27 ph=\x27" ++ ipa_clean ++ "\x27>" ++ name ++ "</phoneme>"
    else
      "<phoneme alphabet=\x27ipa\x27 ph=\x27" ++ ipa_clean ++ "\x27>" ++ name ++ "</phoneme>"
  else
    pyStripSlash (pyStrip phonetic_text)

/-- The fixed model identifier of line 30 of the source. -/
def ELEVENLABS_MODEL : String := "eleven_turbo_v2"

/-- The fixed voice_settings object of lines 90-95. -/
structure VoiceSettings where
  stability : ℚ
  similarity_boost : ℚ
  style : ℚ
  use_speaker_boost : Bool
deriving DecidableEq

/-- The JSON body of the POST, lines 87-96. -/
structure Payload where
  text : String
  model_id : String
  voice_settings : VoiceSettings
deriving DecidableEq

/-- One outgoing HTTP request: the per-voice URL and the headers of
lines 99-103 together with the payload. -/
structure Request where
  url : String
  accept : String
  contentType : String
  apiKeyHeader : String
  payload : Payload
deriving DecidableEq

/-- An HTTP response: status code, body bytes, and the provider error
detail as extracted by lines 117-124 (abstracted, see header). -/
structure HttpResponse where
  status_code : Nat
  content : List Nat
  detail : String
deriving DecidableEq

/-- The outcome of the single requests.post call: a response, or one of
the exceptions handled at lines 147-161. -/
inductive HttpOutcome where
  | response (r : HttpResponse)
  | timeout
  | connectionError
  | otherError (msg : String)
deriving DecidableEq

/-- The JSON-serializable result dictionary: success carries audio_path
and size, failure carries error. -/
inductive PyResult where
  | success (audio_path : String) (size : Nat)
  | failure (error : String)
deriving DecidableEq

/-- The boolean success field of the result dictionary. -/
def PyResult.isSuccess : PyResult → Bool
  | .success _ _ => true
  | .failure _ => false

/-- Line 131: not output_path or not output_path.strip(). -/
def outputPathMissing : Option String → Bool
  | none => true
  | some s => s == "" || pyStrip s == ""

/-- generate_name_audio, lines 32-161 of the source.  Returns the
result together with the list of outgoing requests and the list of
file writes (path, bytes) performed, in order. -/
def generate_name_audio (name phonetic_text : String) (output_path : Option String)
    (speed : ℚ) (api_key voice_id ipa : Option String) (net : HttpOutcome) :
    PyResult × List Request × List (String × List Nat) :=
  if !(pyTruthy api_key) then
    (.failure "ElevenLabs API key not provided", [], [])
  else if !(pyTruthy voice_id) then
    (.failure "ElevenLabs voice ID not provided", [], [])
  else
    let url := "https://api.elevenlabs.io/v1/text-to-speech/" ++ voice_id.getD ""
    let payload : Payload :=
      { text := text_to_speak name phonetic_text ipa
        model_id := ELEVENLABS_MODEL
        voice_settings :=
          { stability := 1/2, similarity_boost := 3/4, style := 0, use_speaker_boost := true } }
    let req : Request :=
      { url := url, accept := "audio/mpeg", contentType := "application/json"
        apiKeyHeader := api_key.getD "", payload := payload }
    match net with
    | .timeout =>
        (.failure "Request timeout - please try again", [req], [])
    | .connectionError =>
        (.failure "Connection error - check your internet connection", [req], [])
    | .otherError msg =>
        (.failure ("Unexpected error: " ++ msg), [req], [])
    | .response r =>
        if !(r.status_code == 200) then
          (.failure ("API error " ++ toString r.status_code ++ ": " ++ r.detail), [req], [])
        else if outputPathMissing output_path then
          (.failure "Output path must be provided by calling application", [req], [])
        else
          (.success (output_path.getD "") r.content.length,
            [req], [(output_path.getD "", r.content)])

/-- All characters are ASCII digits. -/
def allDigits (l : List Char) : Bool :=
  l.all Char.isDigit

/-- Mantissa of a CPython float literal: digits, digits.digits,
digits., or .digits (at least one digit overall). -/
def mantissaOK (l : List Char) : Bool :=
  match l.span Char.isDigit with
  | (intPart, []) => !intPart.isEmpty
  | (intPart, '.' :: frac) =>
      (!intPart.isEmpty || !frac.isEmpty) && allDigits frac
  | _ => false

/-- Exponent part of a CPython float literal (after the e), with an
optional sign and at least one digit. -/
def expOK (l : List Char) : Bool :=
  match l with
  | '+' :: ds => !ds.isEmpty && allDigits ds
  | '-' :: ds => !ds.isEmpty && allDigits ds
  | ds => !ds.isEmpty && allDigits ds

/-- Numeric part of a CPython float literal: mantissa with an optional
exponent introduced by e or E. -/
def numericOK (l : List Char) : Bool :=
  match l.span (fun c => !(c == 'e' || c == 'E')) with
  | (m, []) => mantissaOK m
  | (m, _ :: e) => mantissaOK m && expOK e

/-- Whether float(s) succeeds in CPython: optional surrounding
whitespace, optional sign, then a numeric literal or a case-insensitive
inf, infinity or nan (ASCII model, without underscore separators). -/
def pyFloatValid (s : String) : Bool :=
  let l := pyStripChars Char.isWhitespace s.data
  let l := match l with
    | '+' :: r => r
    | '-' :: r => r
    | r => r
  let low := l.map Char.toLower
  low == "inf".data || low == "infinity".data || low == "nan".data || numericOK l

/-- The observable outcome of one command-line run: the JSON objects
printed to stdout, the exit code, whether the run died on an uncaught
exception, and the network and filesystem effects. -/
structure MainOutcome where
  printed : List PyResult
  exitCode : Nat
  crashed : Bool
  requests : List Request
  writes : List (String × List Nat)
deriving DecidableEq

/-- Lines 183-207 of the source: the name and phonetic-text validation
followed by the call to generate_name_audio, the printed result and the
exit code (0 if result["success"] else 1). -/
def runValidated (name phonetic_text api_key voice_id : String)
    (output_path ipa : Option String) (speed : ℚ) (net : HttpOutcome) : MainOutcome :=
  if name == "" || pyStrip name == "" then
    ⟨[.failure "Name cannot be empty"], 1, false, [], []⟩
  else if phonetic_text == "" || pyStrip phonetic_text == "" then
    ⟨[.failure "Phonetic text cannot be empty"], 1, false, [], []⟩
  else
    let out := generate_name_audio name phonetic_text output_path speed
      (some api_key) (some voice_id) ipa net
    ⟨[out.1], if out.1.isSuccess then 0 else 1, false, out.2.1, out.2.2⟩

/-- main, lines 163-207 of the source.  argv includes the script name
at position 0; the outcome of the single network call is the net
parameter.  The parsed speed value is passed through to
generate_name_audio, which ignores it, so only the success or failure
of float(sys.argv[6]) is observable; a failed parse is an uncaught
ValueError. -/
def main (argv : List String) (net : HttpOutcome) : MainOutcome :=
  if argv.length < 5 then
    ⟨[.failure "Usage: python3 speak_name.py \"Name\" \"Phonetic_Text\" api_key voice_id [output_path] [speed] [ipa]"],
      1, false, [], []⟩
  else
    let name := argv.getD 1 ""
    let phonetic_text := argv.getD 2 ""
    let api_key := argv.getD 3 ""
    let voice_id := argv.getD 4 ""
    let output_path := argv.get? 5
    let ipa := argv.get? 7
    match argv.get? 6 with
    | some s =>
        if pyFloatValid s then
          runValidated name phonetic_text api_key voice_id output_path ipa 1 net
        else
          ⟨[], 1, true, [], []⟩
    | none =>
        runValidated name phonetic_text api_key voice_id output_path ipa 1 net

/-! ### Helper lemmas -/

theorem pyStrip_empty : pyStrip "" = "" := rfl

theorem blank_or_iff (s : String) :
    (s == "" || pyStrip s == "") = (pyStrip s == "") := by
  cases hs : s == "" with
  | true =>
      have : s = "" := by simpa using hs
      subst this
      simp [pyStrip_empty]
  | false => simp

theorem text_plain_of_unusable (name phon : String) (ipa : Option String)
    (h : hintUsable ipa = false) :
    text_to_speak name phon ipa = pyStripSlash (pyStrip phon) := by
  simp [text_to_speak, h]

theorem hintUsable_of_sentinel (s : String)
    (h : s = "IPA not available" ∨ pyStartsWith s "CMU not available" = true) :
    hintUsable (some s) = false := by
  rcases h with h | h
  · subst h; decide
  · simp [hintUsable, h]

theorem pyIsUpper_of (s : String)
    (h1 : s.data.any pyCased = true)
    (h2 : ∀ c ∈ s.data, pyCased c = true → c.isUpper = true) :
    pyIsUpper s = true := by
  have hall : s.data.all (fun c => !(pyCased c) || c.isUpper) = true := by
    rw [List.all_eq_true]
    intro c hc
    cases hcase : pyCased c with
    | true => simpa using h2 c hc hcase
    | false => simp [hcase]
  simp [pyIsUpper, h1, hall]

theorem text_cmu_of (name phon s : String)
    (hu : hintUsable (some s) = true)
    (hc : looksLikeCMU (pyStripSlash (pyStrip s)) = true) :
    text_to_speak name phon (some s)
      = "<phoneme alphabet=\x27cmu-arpabet\x27 ph=\x27" ++ pyStripSlash (pyStrip s)
          ++ "\x27>" ++ name ++ "</phoneme>" := by
  simp [text_to_speak, hu, hc]

theorem text_ipa_of (name phon s : String)
    (hu : hintUsable (some s) = true)
    (hc : looksLikeCMU (pyStripSlash (pyStrip s)) = false) :
    text_to_speak name phon (some s)
      = "<phoneme alphabet=\x27ipa\x27 ph=\x27" ++ pyStripSlash (pyStrip s)
          ++ "\x27>" ++ name ++ "</phoneme>" := by
  simp [text_to_speak, hu, hc]

theorem generate_writes_empty_of_failure (name phon : String) (op : Option String)
    (sp : ℚ) (key voice ipa : Option String) (net : HttpOutcome) (e : String)
    (h : (generate_name_audio name phon op sp key voice ipa net).1 = .failure e) :
    (generate_name_audio name phon op sp key voice ipa net).2.2 = [] := by
  unfold generate_name_audio at h ⊢
  by_cases hk : pyTruthy key
  · by_cases hv : pyTruthy voice
    · cases net with
      | response r =>
          by_cases hs : r.status_code == 200
          · by_cases hop : outputPathMissing op
            · simp [hk, hv, hs, hop]
            · simp [hk, hv, hs, hop] at h
          · simp [hk, hv, hs]
      | timeout => simp [hk, hv]
      | connectionError => simp [hk, hv]
      | otherError msg => simp [hk, hv]
    · simp [hk, hv]
  · simp [hk]

theorem generate_timeout (name phon : String) (op : Option String)
    (sp : ℚ) (key voice ipa : Option String)
    (hk : pyTruthy key = true) (hv : pyTruthy voice = true) :
    (generate_name_audio name phon op sp key voice ipa .timeout).1
        = .failure "Request timeout - please try again" ∧
    (generate_name_audio name phon op sp key voice ipa .timeout).2.2 = [] := by
  constructor <;> simp [generate_name_audio, hk, hv]

theorem generate_200_missing_path (name phon : String) (op : Option String)
    (sp : ℚ) (key voice ipa : Option String) (r : HttpResponse)
    (hk : pyTruthy key = true) (hv : pyTruthy voice = true)
    (hs : r.status_code = 200) (hop : outputPathMissing op = true) :
    (generate_name_audio name phon op sp key voice ipa (.response r)).1
        = .failure "Output path must be provided by calling application" ∧
    (generate_name_audio name phon op sp key voice ipa (.response r)).2.1.length = 1 := by
  constructor <;> simp [generate_name_audio, hk, hv, hs, hop]

theorem generate_200_success (name phon op : String)
    (sp : ℚ) (key voice ipa : Option String) (r : HttpResponse)
    (hk : pyTruthy key = true) (hv : pyTruthy voice = true)
    (hs : r.status_code = 200) (hop : outputPathMissing (some op) = false) :
    (generate_name_audio name phon (some op) sp key voice ipa (.response r)).1
        = .success op r.content.length ∧
    (generate_name_audio name phon (some op) sp key voice ipa (.response r)).2.2
        = [(op, r.content)] := by
  constructor <;> simp [generate_name_audio, hk, hv, hs, hop]

theorem runValidated_single (name phon key voice : String)
    (op ipa : Option String) (sp : ℚ) (net : HttpOutcome) :
    ∃ r, (runValidated name phon key voice op ipa sp net).printed = [r] ∧
      (runValidated name phon key voice op ipa sp net).exitCode
        = (if r.isSuccess then 0 else 1) := by
  unfold runValidated
  by_cases h1 : (name == "" || pyStrip name == "") = true
  · exact ⟨.failure "Name cannot be empty", by simp [h1], by simp [h1, PyResult.isSuccess]⟩
  · by_cases h2 : (phon == "" || pyStrip phon == "") = true
    · exact ⟨.failure "Phonetic text cannot be empty",
        by simp [h1, h2], by simp [h1, h2, PyResult.isSuccess]⟩
    · refine ⟨(generate_name_audio name phon op sp (some key) (some voice) ipa net).1,
        by simp [h1, h2], by simp [h1, h2]⟩

theorem main_eq_runValidated (argv : List String) (net : HttpOutcome)
    (hlen : 5 ≤ argv.length)
    (hspeed : ∀ s, argv.get? 6 = some s → pyFloatValid s = true) :
    main argv net = runValidated (argv.getD 1 "") (argv.getD 2 "") (argv.getD 3 "")
      (argv.getD 4 "") (argv.get? 5) (argv.get? 7) 1 net := by
  unfold main
  have hnl : ¬ argv.length < 5 := by omega
  simp only [if_neg hnl]
  cases hget : argv.get? 6 with
  | none => rfl
  | some s => simp [hget, hspeed s hget]

theorem runValidated_blank (name phon key voice : String) (op ipa : Option String)
    (sp : ℚ) (net : HttpOutcome)
    (hblank : pyStrip name = "" ∨ pyStrip phon = "") :
    (pyStrip name = "" →
      (runValidated name phon key voice op ipa sp net).printed
        = [.failure "Name cannot be empty"]) ∧
    (pyStrip name ≠ "" → pyStrip phon = "" →
      (runValidated name phon key voice op ipa sp net).printed
        = [.failure "Phonetic text cannot be empty"]) ∧
    (runValidated name phon key voice op ipa sp net).exitCode = 1 ∧
    (runValidated name phon key voice op ipa sp net).requests = [] := by
  by_cases hb1 : pyStrip name = ""
  · have h1 : (name == "" || pyStrip name == "") = true := by
      rw [blank_or_iff]; simpa using hb1
    refine ⟨fun _ => ?_, fun hn _ => absurd hb1 hn, ?_, ?_⟩ <;>
      simp [runValidated, h1]
  · have h1 : (name == "" || pyStrip name == "") = false := by
      rw [blank_or_iff]; simpa using hb1
    have hb2 : pyStrip phon = "" := hblank.resolve_left hb1
    have h2 : (phon == "" || pyStrip phon == "") = true := by
      rw [blank_or_iff]; simpa using hb2
    refine ⟨fun h => absurd h hb1, fun _ _ => ?_, ?_, ?_⟩ <;>
      simp [runValidated, h1, h2]

/-! ### Claim theorems -/

/-- Claim C1, counterexample to the claim as stated: with outputPath
missing, an ok api key and voice id, and a 200 response, the result is
the output-path failure but one network request has already been sent
(the validation is not fail-fast); and with outputPath missing and a
timeout, the result is the timeout failure, not the output-path
failure demanded by the claim for every such invocation. -/
theorem C1_cex :
    ((generate_name_audio "Shaquille" "shuh-KEEL" none 1 (some "key") (some "voice") none
        (.response ⟨200, [255, 251], "d"⟩)).1
        = .failure "Output path must be provided by calling application" ∧
     (generate_name_audio "Shaquille" "shuh-KEEL" none 1 (some "key") (some "voice") none
        (.response ⟨200, [255, 251], "d"⟩)).2.1.length = 1) ∧
    (generate_name_audio "Shaquille" "shuh-KEEL" none 1 (some "key") (some "voice") none
        .timeout).1 = .failure "Request timeout - please try again" := by
  decide

/-- Claim C1, amended: when outputPath is missing or blank, the api key
and voice id are provided, and the HTTP response has status 200, the
result is Failure with the output-path message; this validation runs
only after the network call, so exactly one request has been sent. -/
theorem C1_output_path_checked_after_request (name phon : String) (op : Option String)
    (sp : ℚ) (key voice ipa : Option String) (r : HttpResponse)
    (hk : pyTruthy key = true) (hv : pyTruthy voice = true)
    (hs : r.status_code = 200) (hop : outputPathMissing op = true) :
    (generate_name_audio name phon op sp key voice ipa (.response r)).1
        = .failure "Output path must be provided by calling application" ∧
    (generate_name_audio name phon op sp key voice ipa (.response r)).2.1.length = 1 :=
  generate_200_missing_path name phon op sp key voice ipa r hk hv hs hop

/-- Claim C1 witness: the amended theorem at a concrete invocation. -/
theorem C1_output_path_checked_after_request_witness :
    (generate_name_audio "Shaq" "shuh-KEEL" (some "  ") 1 (some "k") (some "v") none
        (.response ⟨200, [0], "d"⟩)).1
        = .failure "Output path must be provided by calling application" ∧
    (generate_name_audio "Shaq" "shuh-KEEL" (some "  ") 1 (some "k") (some "v") none
        (.response ⟨200, [0], "d"⟩)).2.1.length = 1 :=
  C1_output_path_checked_after_request "Shaq" "shuh-KEEL" (some "  ") 1 (some "k") (some "v")
    none ⟨200, [0], "d"⟩ (by decide) (by decide) rfl (by decide)

/-- Claim C2: on a 200 response with a provided, non-blank outputPath,
the full response body is written to outputPath (the single recorded
write is the pair of the path and the whole body), and the result is
Success with audio_path equal to outputPath and size equal to the byte
length of the body. -/
theorem C2_success_writes_full_body (name phon op : String) (sp : ℚ)
    (key voice ipa : Option String) (r : HttpResponse)
    (hk : pyTruthy key = true) (hv : pyTruthy voice = true)
    (hs : r.status_code = 200) (hop : outputPathMissing (some op) = false) :
    (generate_name_audio name phon (some op) sp key voice ipa (.response r)).1
        = .success op r.content.length ∧
    (generate_name_audio name phon (some op) sp key voice ipa (.response r)).2.2
        = [(op, r.content)] :=
  generate_200_success name phon op sp key voice ipa r hk hv hs hop

/-- Claim C2 witness: a 200 response whose body is the bytes of
b"\xFF\xFBmp3data" yields a file holding exactly those nine bytes and a
success result of size 9. -/
theorem C2_success_writes_full_body_witness :
    (generate_name_audio "Shaq" "shuh-KEEL" (some "out.mp3") 1 (some "k") (some "v") none
        (.response ⟨200, [255, 251, 109, 112, 51, 100, 97, 116, 97], ""⟩)).1
        = .success "out.mp3" 9 ∧
    (generate_name_audio "Shaq" "shuh-KEEL" (some "out.mp3") 1 (some "k") (some "v") none
        (.response ⟨200, [255, 251, 109, 112, 51, 100, 97, 116, 97], ""⟩)).2.2
        = [("out.mp3", [255, 251, 109, 112, 51, 100, 97, 116, 97])] :=
  C2_success_writes_full_body "Shaq" "shuh-KEEL" "out.mp3" 1 (some "k") (some "v") none
    ⟨200, [255, 251, 109, 112, 51, 100, 97, 116, 97], ""⟩ (by decide) (by decide) rfl (by decide)

/-- Claim C3: a usable phonetic hint whose cleaned form (trimmed, then
stripped of surrounding slashes) contains a stress digit 0, 1 or 2, has
at least one letter once spaces are removed, and all of whose letters
are uppercase, produces the cmu-arpabet phoneme tag around the literal
name with ph set to the cleaned hint. -/
theorem C3_cmu_hint_phoneme_tag (name phon s : String)
    (hu : hintUsable (some s) = true)
    (hdigit : containsStressDigit (pyStripSlash (pyStrip s)) = true)
    (hletter : (pyRemoveSpaces (pyStripSlash (pyStrip s))).data.any pyCased = true)
    (hupper : ∀ c ∈ (pyRemoveSpaces (pyStripSlash (pyStrip s))).data,
        pyCased c = true → c.isUpper = true) :
    text_to_speak name phon (some s)
      = "<phoneme alphabet=\x27cmu-arpabet\x27 ph=\x27" ++ pyStripSlash (pyStrip s)
          ++ "\x27>" ++ name ++ "</phoneme>" := by
  apply text_cmu_of name phon s hu
  simp [looksLikeCMU, hdigit, pyIsUpper_of _ hletter hupper]

/-- Claim C3 witness: the hint "SH AH0 K IY1 L" produces the
cmu-arpabet phoneme tag. -/
theorem C3_cmu_hint_phoneme_tag_witness :
    text_to_speak "Shaquille" "shuh-KEEL" (some "SH AH0 K IY1 L")
      = "<phoneme alphabet=\x27cmu-arpabet\x27 ph=\x27SH AH0 K IY1 L\x27>Shaquille</phoneme>" :=
  (C3_cmu_hint_phoneme_tag "Shaquille" "shuh-KEEL" "SH AH0 K IY1 L"
    (by decide) (by decide) (by decide) (by decide)).trans (by decide)

/-- Claim C5: whenever the result is a failure, no file write has been
performed; in particular a timeout (with key and voice id provided)
yields the timeout failure message and no file write. -/
theorem C5_no_write_on_failure (name phon : String) (op : Option String) (sp : ℚ)
    (key voice ipa : Option String) :
    (∀ (net : HttpOutcome) (e : String),
        (generate_name_audio name phon op sp key voice ipa net).1 = .failure e →
        (generate_name_audio name phon op sp key voice ipa net).2.2 = []) ∧
    (pyTruthy key = true → pyTruthy voice = true →
      (generate_name_audio name phon op sp key voice ipa .timeout).1
          = .failure "Request timeout - please try again" ∧
      (generate_name_audio name phon op sp key voice ipa .timeout).2.2 = []) :=
  ⟨fun net e h => generate_writes_empty_of_failure name phon op sp key voice ipa net e h,
   fun hk hv => generate_timeout name phon op sp key voice ipa hk hv⟩

/-- Claim C5 witness: a concrete timeout invocation, via both parts of
the theorem. -/
theorem C5_no_write_on_failure_witness :
    (generate_name_audio "Shaq" "shuh-KEEL" (some "out.mp3") 1 (some "k") (some "v") none
        .timeout).2.2 = [] ∧
    (generate_name_audio "Shaq" "shuh-KEEL" (some "out.mp3") 1 (some "k") (some "v") none
        .timeout).1 = .failure "Request timeout - please try again" :=
  ⟨(C5_no_write_on_failure "Shaq" "shuh-KEEL" (some "out.mp3") 1 (some "k") (some "v") none).1
      .timeout "Request timeout - please try again" (by decide),
   ((C5_no_write_on_failure "Shaq" "shuh-KEEL" (some "out.mp3") 1 (some "k") (some "v") none).2
      (by decide) (by decide)).1⟩

/-- Claim C4: for a full command line (all five required arguments
present, speed parseable when present) whose name or phonetic text is
empty or whitespace-only, the run prints the failure naming the
offending field (name is checked first), exits with code 1, and makes
no network call. -/
theorem C4_blank_fields_fail_without_network (argv : List String) (net : HttpOutcome)
    (hlen : 5 ≤ argv.length)
    (hspeed : ∀ s, argv.get? 6 = some s → pyFloatValid s = true)
    (hblank : pyStrip (argv.getD 1 "") = "" ∨ pyStrip (argv.getD 2 "") = "") :
    (pyStrip (argv.getD 1 "") = "" →
      (main argv net).printed = [.failure "Name cannot be empty"]) ∧
    (pyStrip (argv.getD 1 "") ≠ "" → pyStrip (argv.getD 2 "") = "" →
      (main argv net).printed = [.failure "Phonetic text cannot be empty"]) ∧
    (main argv net).exitCode = 1 ∧
    (main argv net).requests = [] := by
  rw [main_eq_runValidated argv net hlen hspeed]
  exact runValidated_blank _ _ _ _ _ _ _ _ hblank

/-- Claim C4 witness: a whitespace-only name with a timeout outcome. -/
theorem C4_blank_fields_fail_without_network_witness :
    (main ["speak_name.py", "   ", "shuh-KEEL", "k", "v"] .timeout).printed
        = [.failure "Name cannot be empty"] ∧
    (main ["speak_name.py", "   ", "shuh-KEEL", "k", "v"] .timeout).exitCode = 1 ∧
    (main ["speak_name.py", "   ", "shuh-KEEL", "k", "v"] .timeout).requests = [] := by
  have h := C4_blank_fields_fail_without_network
    ["speak_name.py", "   ", "shuh-KEEL", "k", "v"] .timeout (by decide)
    (fun s hs => Option.noConfusion hs) (Or.inl (by decide))
  exact ⟨h.1 (by decide), h.2.2.1, h.2.2.2⟩

/-- Claim C6, counterexample to the claim as stated: the speed argument
"fast" makes float(sys.argv[6]) raise an uncaught ValueError, so the
run prints no JSON object at all (the claim demands exactly one for
every command-line invocation). -/
theorem C6_cex :
    (main ["speak_name.py", "Shaq", "shuh-KEEL", "key", "voice", "out.mp3", "fast"]
        .timeout).printed = [] ∧
    (main ["speak_name.py", "Shaq", "shuh-KEEL", "key", "voice", "out.mp3", "fast"]
        .timeout).crashed = true ∧
    (main ["speak_name.py", "Shaq", "shuh-KEEL", "key", "voice", "out.mp3", "fast"]
        .timeout).exitCode = 1 := by
  decide

/-- Claim C6, amended: for every command-line invocation whose optional
speed argument, when present, parses as a float, the run prints exactly
one JSON object — of the success shape or of the failure shape — and
exits with code 0 exactly on success and 1 on any failure, including
argument-count and validation errors. -/
theorem C6_single_json_and_exit (argv : List String) (net : HttpOutcome)
    (hspeed : ∀ s, argv.get? 6 = some s → pyFloatValid s = true) :
    ∃ r, (main argv net).printed = [r] ∧
      (main argv net).exitCode = (if r.isSuccess then 0 else 1) ∧
      ((∃ p n, r = .success p n) ∨ (∃ e, r = .failure e)) := by
  have hshape : ∀ r : PyResult, (∃ p n, r = .success p n) ∨ (∃ e, r = .failure e) := by
    intro r
    cases r with
    | success p n => exact Or.inl ⟨p, n, rfl⟩
    | failure e => exact Or.inr ⟨e, rfl⟩
  by_cases hlen : argv.length < 5
  · refine ⟨.failure "Usage: python3 speak_name.py \"Name\" \"Phonetic_Text\" api_key voice_id [output_path] [speed] [ipa]",
      ?_, ?_, hshape _⟩
    · simp [main, hlen]
    · simp [main, hlen, PyResult.isSuccess]
  · rw [main_eq_runValidated argv net (by omega) hspeed]
    obtain ⟨r, h1, h2⟩ := runValidated_single (argv.getD 1 "") (argv.getD 2 "")
      (argv.getD 3 "") (argv.getD 4 "") (argv.get? 5) (argv.get? 7) 1 net
    exact ⟨r, h1, h2, hshape r⟩

/-- Claim C6 witness: a full successful invocation. -/
theorem C6_single_json_and_exit_witness :
    ∃ r, (main ["speak_name.py", "Shaq", "shuh-KEEL", "key", "voice", "out.mp3"]
        (.response ⟨200, [255, 251], "d"⟩)).printed = [r] ∧
      (main ["speak_name.py", "Shaq", "shuh-KEEL", "key", "voice", "out.mp3"]
        (.response ⟨200, [255, 251], "d"⟩)).exitCode = (if r.isSuccess then 0 else 1) ∧
      ((∃ p n, r = .success p n) ∨ (∃ e, r = .failure e)) :=
  C6_single_json_and_exit ["speak_name.py", "Shaq", "shuh-KEEL", "key", "voice", "out.mp3"]
    (.response ⟨200, [255, 251], "d"⟩) (fun s hs => Option.noConfusion hs)

/-- Claim C7: a usable phonetic hint whose cleaned form does not match
the CMU-Arpabet pattern produces the ipa phoneme tag around the literal
name with ph set to the cleaned hint. -/
theorem C7_ipa_hint_phoneme_tag (name phon s : String)
    (hu : hintUsable (some s) = true)
    (hnot : looksLikeCMU (pyStripSlash (pyStrip s)) = false) :
    text_to_speak name phon (some s)
      = "<phoneme alphabet=\x27ipa\x27 ph=\x27" ++ pyStripSlash (pyStrip s)
          ++ "\x27>" ++ name ++ "</phoneme>" :=
  text_ipa_of name phon s hu hnot

/-- Claim C7 witness: the IPA hint for Shaquille produces the ipa
phoneme tag. -/
theorem C7_ipa_hint_phoneme_tag_witness :
    text_to_speak "Shaquille" "shuh-KEEL" (some "ʃəˈkiːl")
      = "<phoneme alphabet=\x27ipa\x27 ph=\x27ʃəˈkiːl\x27>Shaquille</phoneme>" :=
  (C7_ipa_hint_phoneme_tag "Shaquille" "shuh-KEEL" "ʃəˈkiːl"
    (by decide) (by decide)).trans (by decide)

/-- Claim C8: with no usable phonetic hint (absent, blank, or a
sentinel marker), the text to speak is the phonetic respelling trimmed
of whitespace and stripped of surrounding slashes, with no phoneme
tag. -/
theorem C8_plain_respelling (name phon : String) (ipa : Option String)
    (h : hintUsable ipa = false) :
    text_to_speak name phon ipa = pyStripSlash (pyStrip phon) :=
  text_plain_of_unusable name phon ipa h

/-- Claim C8 witness: with no hint and the respelling padded with
whitespace, the text to speak is exactly the trimmed respelling. -/
theorem C8_plain_respelling_witness :
    text_to_speak "Shaquille" " shuh-KEEL " none = "shuh-KEEL" :=
  (C8_plain_respelling "Shaquille" " shuh-KEEL " none (by decide)).trans (by decide)

/-- Claim C9: two invocations identical except for the speed value
(each within 0.5 to 1.5) produce the same outgoing requests — hence the
same payload — and, from the same network outcome, the same whole
observable behaviour. -/
theorem C9_speed_has_no_influence (name phon : String) (op : Option String)
    (s1 s2 : ℚ) (key voice ipa : Option String) (net : HttpOutcome)
    (h1 : 1/2 ≤ s1) (h2 : s1 ≤ 3/2) (h3 : 1/2 ≤ s2) (h4 : s2 ≤ 3/2) :
    (generate_name_audio name phon op s1 key voice ipa net).2.1
        = (generate_name_audio name phon op s2 key voice ipa net).2.1 ∧
    generate_name_audio name phon op s1 key voice ipa net
        = generate_name_audio name phon op s2 key voice ipa net :=
  ⟨rfl, rfl⟩

/-- Claim C9 witness: speeds 1 and 3/2 on a concrete invocation. -/
theorem C9_speed_has_no_influence_witness :
    (generate_name_audio "Shaq" "shuh-KEEL" (some "out.mp3") 1 (some "k") (some "v") none
        .timeout).2.1
      = (generate_name_audio "Shaq" "shuh-KEEL" (some "out.mp3") (3/2) (some "k") (some "v")
        none .timeout).2.1 ∧
    generate_name_audio "Shaq" "shuh-KEEL" (some "out.mp3") 1 (some "k") (some "v") none
        .timeout
      = generate_name_audio "Shaq" "shuh-KEEL" (some "out.mp3") (3/2) (some "k") (some "v")
        none .timeout :=
  C9_speed_has_no_influence "Shaq" "shuh-KEEL" (some "out.mp3") 1 (3/2) (some "k") (some "v")
    none .timeout (by norm_num) (by norm_num) (by norm_num) (by norm_num)

/-- Claim C10: a hint that is exactly "IPA not available", or that
starts with "CMU not available", is treated as absent: the text to
speak is the plain cleaned respelling, never a phoneme tag built from
such a hint. -/
theorem C10_sentinel_hints_ignored (name phon s : String)
    (h : s = "IPA not available" ∨ pyStartsWith s "CMU not available" = true) :
    text_to_speak name phon (some s) = pyStripSlash (pyStrip phon) :=
  text_plain_of_unusable name phon (some s) (hintUsable_of_sentinel s h)

/-- Claim C10 witness: a hint starting with "CMU not available" falls
through to the slash-stripped respelling. -/
theorem C10_sentinel_hints_ignored_witness :
    text_to_speak "Shaquille" "/shuh-KEEL/" (some "CMU not available for this name")
      = "shuh-KEEL" :=
  (C10_sentinel_hints_ignored "Shaquille" "/shuh-KEEL/" "CMU not available for this name"
    (Or.inr (by decide))).trans (by decide)

end SpeakName
